import Mathlib

/-!
Verification of the kinship-term core of `src/src/App.tsx` (South Indian
Relationship Finder).  The embedding mirrors the source: `startPerson`,
`move`, `simulate` and `labelFor` are direct translations of the TypeScript
functions of the same names; rows are integers, columns are the two-valued
type `Col`, and the optional `trace` argument of `labelFor` is an
`Option (List Person)` exactly as in the source signature.
-/

/-- Matrix column, `COLS = ["A", "B"]` in the source. -/
inductive Col
  | A
  | B
deriving DecidableEq, Repr

/-- `otherCol` from the source: the opposite column. -/
def otherCol : Col → Col
  | Col.A => Col.B
  | Col.B => Col.A

/-- `Gender` from the source. -/
inductive Gender
  | male
  | female
  | unknown
deriving DecidableEq, Repr

/-- `AgeRel` from the source. -/
inductive AgeRel
  | elder
  | younger
  | unknown
deriving DecidableEq, Repr

/-- `StepType` from the source: father, mother, husband, wife, son,
daughter, or sibling with a gender and age payload. -/
inductive StepType
  | father
  | mother
  | husband
  | wife
  | son
  | daughter
  | sibling (gender : Gender) (age : AgeRel)
deriving DecidableEq, Repr

/-- The value set of the source field `refForAge?`:
`"you" | "father" | "mother" | "husband" | "wife" | "self"`. -/
inductive RefForAge
  | you
  | father
  | mother
  | husband
  | wife
  | self
deriving DecidableEq, Repr

/-- `Person` from the source: a position on the 2×N matrix plus the
metadata threaded through every transition. -/
structure Person where
  col : Col
  row : Int
  gender : Gender
  refForAge : RefForAge
  noSiblingInGeneration : Bool
deriving DecidableEq, Repr

/-- `startPerson` from the source: You at A2 with the selected gender. -/
def startPerson (userGender : Gender) : Person :=
  ⟨Col.A, 2, userGender, RefForAge.you, false⟩

/-- `move` from the source: the transition function (Position, Step) → Position. -/
def move (p : Person) (step : StepType) : Person :=
  match step with
  | StepType.father =>
      ⟨p.col, p.row - 1, Gender.male, RefForAge.father, true⟩
  | StepType.mother =>
      ⟨otherCol p.col, p.row - 1, Gender.female, RefForAge.mother, true⟩
  | StepType.husband =>
      ⟨if p.gender = Gender.male then p.col else otherCol p.col, p.row,
        Gender.male, RefForAge.husband, p.noSiblingInGeneration⟩
  | StepType.wife =>
      ⟨if p.gender = Gender.female then p.col else otherCol p.col, p.row,
        Gender.female, RefForAge.wife, p.noSiblingInGeneration⟩
  | StepType.son =>
      ⟨if p.gender = Gender.male then p.col else otherCol p.col, p.row + 1,
        Gender.male, RefForAge.self, true⟩
  | StepType.daughter =>
      ⟨if p.gender = Gender.male then p.col else otherCol p.col, p.row + 1,
        Gender.female, RefForAge.self, true⟩
  | StepType.sibling g _ =>
      ⟨p.col, p.row, g, p.refForAge, false⟩

/-- Helper for `simulate`: the trace starting from a given person. -/
def simulateFrom (p : Person) (steps : List StepType) : List Person :=
  match steps with
  | [] => [p]
  | s :: rest => p :: simulateFrom (move p s) rest

/-- `simulate` from the source: the full ordered trace of positions,
starting at `startPerson userGender`. -/
def simulate (userGender : Gender) (steps : List StepType) : List Person :=
  simulateFrom (startPerson userGender) steps

/-- `labelFor` from the source: the term-resolution function.  Each
row-block of the TypeScript cascade that can fall through (no `return`
taken) is rendered as an `Option String`; the blocks are tried in source
order and the final fallback string is the sentinel. -/
def labelFor (person : Person) (path : List StepType) (userGender : Gender)
    (trace : Option (List Person)) : String :=
  let last := path.getLast?
  if path.length = 0 then "You" else
  let r2a : Option String :=
    if person.row = 2 ∧ person.col = Col.A then
      some (match last with
        | some (StepType.sibling Gender.male age) =>
            if age = AgeRel.elder then "aNNa (elder brother)"
            else if age = AgeRel.younger then "tamma (younger brother)"
            else "aNNa/tamma (brother)"
        | some (StepType.sibling Gender.female age) =>
            if age = AgeRel.elder then "akka (elder sister)"
            else if age = AgeRel.younger then "tangi (younger sister)"
            else "akka/tangi (sister)"
        | some (StepType.sibling Gender.unknown _) => "Sibling (need gender/age)"
        | _ =>
            match person.gender with
            | Gender.male => "aNNa/tamma (brother/cousin treated as sibling)"
            | Gender.female => "akka/tangi (sister/cousin treated as sibling)"
            | Gender.unknown => "Sibling/cousin in same block")
    else none
  let r1 : Option String :=
    if person.row = 1 then
      let cameViaChild : Bool :=
        match last with
        | some StepType.son => true
        | some StepType.daughter => true
        | _ => false
      let effectiveCol : Col :=
        match trace with
        | some tr =>
            if cameViaChild ∧ 2 ≤ tr.length then
              match tr.get? (tr.length - 2) with
              | some parent =>
                  if parent.gender = Gender.male then parent.col
                  else otherCol parent.col
              | none => person.col
            else person.col
        | none => person.col
      match person.gender with
      | Gender.male =>
          some (if person.noSiblingInGeneration then "Appa (father)"
            else if effectiveCol = Col.A then "doDDappa/chikkappa (father’s brother)"
            else "MAva (maternal uncle)")
      | Gender.female =>
          some (if person.noSiblingInGeneration then "Amma (mother)"
            else if effectiveCol = Col.A then "Atthe (father’s sister / paternal aunt)"
            else "doDDamma/chikkamma (mother’s sister)")
      | Gender.unknown => none
    else none
  let r2b : Option String :=
    if person.row = 2 ∧ person.col = Col.B then
      if path.length = 1 ∧ last = some StepType.husband then some "GanDa (husband)"
      else if path.length = 1 ∧ last = some StepType.wife then some "HenDathi (wife)"
      else match last with
        | some (StepType.sibling Gender.male age) =>
            some (if age = AgeRel.elder then "BhAva (elder brother-in-law)"
              else if age = AgeRel.younger then "Maiduna (younger brother-in-law)"
              else "BhAva/Maiduna (brother-in-law)")
        | some (StepType.sibling Gender.female age) =>
            some (if age = AgeRel.elder then "Attige (elder sister-in-law)"
              else if age = AgeRel.younger then "NAdini (younger sister-in-law)"
              else "Attige/NAdini (sister-in-law)")
        | some (StepType.sibling Gender.unknown _) => some "Sibling-in-law (need gender/age)"
        | _ =>
            match person.gender with
            | Gender.male => some "BhAva/Maiduna (cousin-in-law)"
            | Gender.female => some "Attige/NAdini (cousin-in-law)"
            | Gender.unknown => none
    else none
  let r3 : Option String :=
    if person.row = 3 then
      match person.gender with
      | Gender.male =>
          some (if last = some StepType.son then "Maga (son)"
            else if last = some StepType.husband then "ALiya (son-in-law)"
            else "Mommagga (grandson)")
      | Gender.female =>
          some (if last = some StepType.daughter then "MagaLu (daughter)"
            else if last = some StepType.wife then "Sose (daughter-in-law)"
            else "Mommagalu (granddaughter)")
      | Gender.unknown => none
    else none
  let r4 : Option String :=
    if person.row = 4 then
      match person.gender with
      | Gender.male => some "Mommagga (grandson)"
      | Gender.female => some "Mommagalu (granddaughter)"
      | Gender.unknown => none
    else none
  let r0 : Option String :=
    if person.row = 0 then
      some (match person.gender with
        | Gender.male => "Ajja (grandfather)"
        | Gender.female => "Ajji (grandmother)"
        | Gender.unknown => "Ajja/Ajji (grandparent)")
    else none
  let rm1 : Option String :=
    if person.row = -1 then
      some (match person.gender with
        | Gender.male => "Muttajja (great-grandfather)"
        | Gender.female => "Muttajji (great-grandmother)"
        | Gender.unknown => "Muttajja/Muttajji (great-grandparent)")
    else none
  (r2a <|> r1 <|> r2b <|> r3 <|> r4 <|> r0 <|> rm1).getD
    "Relationship not yet covered by this demo"

-- Sanity checks against the spec scenarios (closed computations).
example : labelFor (startPerson Gender.male) [] Gender.male
    (some (simulate Gender.male [])) = "You" := rfl

example :
    labelFor ⟨Col.B, 1, Gender.male, RefForAge.mother, false⟩
      [StepType.mother, StepType.sibling Gender.male AgeRel.unknown] Gender.male
      (some (simulate Gender.male
        [StepType.mother, StepType.sibling Gender.male AgeRel.unknown])) =
    "MAva (maternal uncle)" := rfl

example :
    (simulate Gender.male
      [StepType.mother, StepType.sibling Gender.male AgeRel.unknown]).getLast? =
    some ⟨Col.B, 1, Gender.male, RefForAge.mother, false⟩ := rfl

/-- The spec's five-valued `ageReferenceTag` vocabulary
({self, father, mother, husband, wife}).  The source field `refForAge`
has six values; the spec merges the source tags `you` (the asker at the
start) and `self` (set by son/daughter steps) into its single tag `self`,
both denoting age-relativity judged against the person themself. -/
inductive SpecAgeTag
  | self
  | father
  | mother
  | husband
  | wife
deriving DecidableEq, Repr

/-- Abstraction from the source's `refForAge` values to the spec's
`ageReferenceTag` vocabulary. -/
def specAgeTag : RefForAge → SpecAgeTag
  | RefForAge.you => SpecAgeTag.self
  | RefForAge.self => SpecAgeTag.self
  | RefForAge.father => SpecAgeTag.father
  | RefForAge.mother => SpecAgeTag.mother
  | RefForAge.husband => SpecAgeTag.husband
  | RefForAge.wife => SpecAgeTag.wife

/-- Steps of spec Scenario 6: mother, mother, sibling(female, unknown), daughter. -/
def scenario6Steps : List StepType :=
  [StepType.mother, StepType.mother, StepType.sibling Gender.female AgeRel.unknown,
    StepType.daughter]

/-- Every column is A or B. -/
lemma col_eq_A_or_B (c : Col) : c = Col.A ∨ c = Col.B := by
  cases c
  · exact Or.inl rfl
  · exact Or.inr rfl

/-- C1: on selfGender = male and steps [mother, mother, sibling(female, unknown),
daughter], the pipeline does end at a row-1 position (column B, female,
noSiblingInGeneration = true), but `labelFor` returns "Amma (mother)", not a
"father’s sister"/"mother’s sister" aunt term: the daughter step sets
`noSiblingInGeneration = true` and that check precedes the effective-column
branch, so the child-step lookback documented in the source comments is never
reached. -/
theorem C1_scenario6_eval :
    (simulate Gender.male scenario6Steps).getLast? =
      some ⟨Col.B, 1, Gender.female, RefForAge.self, true⟩ ∧
    labelFor ⟨Col.B, 1, Gender.female, RefForAge.self, true⟩ scenario6Steps
      Gender.male (some (simulate Gender.male scenario6Steps)) = "Amma (mother)" ∧
    "Amma (mother)" ≠ "Atthe (father’s sister / paternal aunt)" ∧
    "Amma (mother)" ≠ "doDDamma/chikkamma (mother’s sister)" := by
  refine ⟨rfl, rfl, by decide, by decide⟩

/-- C4: column behaviour of `move`: a mother step always flips the column; a
husband step flips it iff the current gender is not male; a wife step flips it
iff the current gender is not female; father and sibling steps never change it;
son and daughter steps keep it exactly when the current gender is male; and the
resulting column is always A or B. -/
theorem C4_column_rule (p : Person) (sg : Gender) (sa : AgeRel) (s : StepType) :
    (move p StepType.mother).col = otherCol p.col ∧
    ((move p StepType.husband).col = otherCol p.col ↔ p.gender ≠ Gender.male) ∧
    ((move p StepType.wife).col = otherCol p.col ↔ p.gender ≠ Gender.female) ∧
    (move p StepType.father).col = p.col ∧
    (move p (StepType.sibling sg sa)).col = p.col ∧
    (move p StepType.son).col =
      (if p.gender = Gender.male then p.col else otherCol p.col) ∧
    (move p StepType.daughter).col =
      (if p.gender = Gender.male then p.col else otherCol p.col) ∧
    ((move p s).col = Col.A ∨ (move p s).col = Col.B) := by
  obtain ⟨c, r, g, ref, ns⟩ := p
  refine ⟨rfl, ?_, ?_, rfl, rfl, rfl, rfl, col_eq_A_or_B _⟩
  · cases c <;> cases g <;> simp [move, otherCol]
  · cases c <;> cases g <;> simp [move, otherCol]

/-- C5: row behaviour of `move`: father and mother decrease the row by exactly
1, son and daughter increase it by exactly 1, and husband, wife and sibling
leave it unchanged. -/
theorem C5_row_rule (p : Person) (sg : Gender) (sa : AgeRel) :
    (move p StepType.father).row = p.row - 1 ∧
    (move p StepType.mother).row = p.row - 1 ∧
    (move p StepType.son).row = p.row + 1 ∧
    (move p StepType.daughter).row = p.row + 1 ∧
    (move p StepType.husband).row = p.row ∧
    (move p StepType.wife).row = p.row ∧
    (move p (StepType.sibling sg sa)).row = p.row := by
  exact ⟨rfl, rfl, rfl, rfl, rfl, rfl, rfl⟩

/-- C8: for every selfGender, `startPerson` returns column A, row 2, the given
gender, `noSiblingInGeneration = false`, and the age-reference tag that the
spec's vocabulary calls `self` (rendered `you` in the source's six-valued
`refForAge` type). -/
theorem C8_initial_position (g : Gender) :
    startPerson g = ⟨Col.A, 2, g, RefForAge.you, false⟩ ∧
    specAgeTag (startPerson g).refForAge = SpecAgeTag.self := by
  exact ⟨rfl, rfl⟩

/-- C9: the husband step is idempotent under `move`, and so is the wife step:
a second application of the same spouse step changes nothing, because the
first fixes the gender to male (resp. female). -/
theorem C9_spouse_idempotent (p : Person) :
    move (move p StepType.husband) StepType.husband = move p StepType.husband ∧
    move (move p StepType.wife) StepType.wife = move p StepType.wife := by
  exact ⟨rfl, rfl⟩

/-- C10: a spouse step matching the asker's own gender never leaves the self
cell: for a male asker, [husband] ends at column A, row 2 (male), and for a
female asker, [wife] ends at column A, row 2 (female); `labelFor` then returns
the gender-keyed "treated as sibling" label, not a spouse or self term. -/
theorem C10_same_gender_spouse :
    (simulate Gender.male [StepType.husband]).getLast? =
      some ⟨Col.A, 2, Gender.male, RefForAge.husband, false⟩ ∧
    labelFor ⟨Col.A, 2, Gender.male, RefForAge.husband, false⟩ [StepType.husband]
      Gender.male (some (simulate Gender.male [StepType.husband])) =
      "aNNa/tamma (brother/cousin treated as sibling)" ∧
    (simulate Gender.female [StepType.wife]).getLast? =
      some ⟨Col.A, 2, Gender.female, RefForAge.wife, false⟩ ∧
    labelFor ⟨Col.A, 2, Gender.female, RefForAge.wife, false⟩ [StepType.wife]
      Gender.female (some (simulate Gender.female [StepType.wife])) =
      "akka/tangi (sister/cousin treated as sibling)" := by
  exact ⟨rfl, rfl, rfl, rfl⟩

/-- The trace from any starting person has one more element than the step list. -/
lemma simulateFrom_length (p : Person) (steps : List StepType) :
    (simulateFrom p steps).length = steps.length + 1 := by
  induction steps generalizing p with
  | nil => rfl
  | cons s rest ih => simp [simulateFrom, ih]

/-- The trace from any starting person begins with that person. -/
lemma simulateFrom_get_zero (p : Person) (steps : List StepType) :
    (simulateFrom p steps)[0]? = some p := by
  cases steps <;> simp [simulateFrom]

/-- Each trace element after the first is `move` of the previous element and
the corresponding step. -/
lemma simulateFrom_step (p : Person) (steps : List StepType) :
    ∀ i q s, (simulateFrom p steps)[i]? = some q → steps[i]? = some s →
      (simulateFrom p steps)[i + 1]? = some (move q s) := by
  induction steps generalizing p with
  | nil =>
      intro i q s _ hs
      simp at hs
  | cons s0 rest ih =>
      intro i q s hq hs
      cases i with
      | zero =>
          have hq' : p = q := by simpa [simulateFrom] using hq
          have hs' : s0 = s := by simpa using hs
          rw [← hq', ← hs']
          simpa [simulateFrom] using simulateFrom_get_zero (move p s0) rest
      | succ j =>
          simp only [simulateFrom, List.getElem?_cons_succ] at hq hs ⊢
          exact ih (move p s0) j q s hq hs

/-- C3: for every selfGender and step list, `simulate` yields a trace of
length `len(steps) + 1`, whose element 0 is `startPerson selfGender` and whose
element `i + 1` is `move` of element `i` and step `i`; the empty step list
yields the one-element trace `[startPerson selfGender]`. -/
theorem C3_simulate_trace (g : Gender) (steps : List StepType) :
    (simulate g steps).length = steps.length + 1 ∧
    (simulate g steps)[0]? = some (startPerson g) ∧
    (∀ i p s, (simulate g steps)[i]? = some p → steps[i]? = some s →
      (simulate g steps)[i + 1]? = some (move p s)) ∧
    simulate g [] = [startPerson g] := by
  refine ⟨simulateFrom_length _ _, simulateFrom_get_zero _ _, ?_, rfl⟩
  exact simulateFrom_step (startPerson g) steps

/-- C3 witness: the trace of a male asker taking one father step, evaluated
concretely at index 0. -/
theorem C3_simulate_trace_witness :
    (simulate Gender.male [StepType.father])[1]? =
      some (move (startPerson Gender.male) StepType.father) :=
  (C3_simulate_trace Gender.male [StepType.father]).2.2.1 0
    (startPerson Gender.male) StepType.father rfl rfl

/-- C6: whenever the final position sits at row 2, column B and the step list
is exactly [husband] (resp. [wife]), `labelFor` returns the direct husband
(resp. wife) term; in particular a female asker's [husband] path ends at
{B, 2, male} with the husband label. -/
theorem C6_direct_spouse :
    (∀ (p : Person) (g : Gender) (tr : Option (List Person)),
      p.row = 2 → p.col = Col.B →
      labelFor p [StepType.husband] g tr = "GanDa (husband)") ∧
    (∀ (p : Person) (g : Gender) (tr : Option (List Person)),
      p.row = 2 → p.col = Col.B →
      labelFor p [StepType.wife] g tr = "HenDathi (wife)") ∧
    (simulate Gender.female [StepType.husband]).getLast? =
      some ⟨Col.B, 2, Gender.male, RefForAge.husband, false⟩ ∧
    labelFor ⟨Col.B, 2, Gender.male, RefForAge.husband, false⟩ [StepType.husband]
      Gender.female (some (simulate Gender.female [StepType.husband])) =
      "GanDa (husband)" := by
  refine ⟨?_, ?_, rfl, rfl⟩
  · intro p g tr hrow hcol
    obtain ⟨c, r, pg, ref, ns⟩ := p
    simp only at hrow hcol
    subst hrow
    subst hcol
    rfl
  · intro p g tr hrow hcol
    obtain ⟨c, r, pg, ref, ns⟩ := p
    simp only at hrow hcol
    subst hrow
    subst hcol
    rfl

/-- C6 witness: a concrete position at row 2, column B with path [husband]
resolves to the husband term. -/
theorem C6_direct_spouse_witness :
    labelFor ⟨Col.B, 2, Gender.male, RefForAge.husband, false⟩ [StepType.husband]
      Gender.female none = "GanDa (husband)" :=
  C6_direct_spouse.1 ⟨Col.B, 2, Gender.male, RefForAge.husband, false⟩
    Gender.female none rfl rfl

/-- Spec-side definition (the words of §4.4 rule 3, for comparison with the
source): the effective column of a row-1 final position is the position's own
column, unless the last step is son or daughter, in which case it is the
column the second-to-last trace entry would occupy as head-of-household
(male keeps its column, female flips). -/
def specEffectiveColumn (p : Person) (path : List StepType) (tr : List Person) : Col :=
  match path.getLast? with
  | some StepType.son | some StepType.daughter =>
      match tr[tr.length - 2]? with
      | some parent =>
          if parent.gender = Gender.male then parent.col else otherCol parent.col
      | none => p.col
  | _ => p.col

/-- Spec-side definition (the words of §4.4 rule 3): the row-1 term given the
final position's gender and noSiblingInGeneration flag and the effective
column — father/mother for direct lineage, father's-brother/father's-sister
for effective column A, mother's-brother/mother's-sister for effective
column B. -/
def specRow1Term (p : Person) (effCol : Col) : String :=
  match p.gender with
  | Gender.male =>
      if p.noSiblingInGeneration then "Appa (father)"
      else if effCol = Col.A then "doDDappa/chikkappa (father’s brother)"
      else "MAva (maternal uncle)"
  | Gender.female =>
      if p.noSiblingInGeneration then "Amma (mother)"
      else if effCol = Col.A then "Atthe (father’s sister / paternal aunt)"
      else "doDDamma/chikkamma (mother’s sister)"
  | Gender.unknown => "Relationship not yet covered by this demo"

/-- C2: for every final position at row 1 with known gender (reached by a
non-empty path whose trace has the pipeline's length), `labelFor` returns
exactly the term prescribed by the spec's row-1 rule: the direct parent term
when `noSiblingInGeneration` holds, else the paternal term for effective
column A and the maternal term for effective column B, with the effective
column as defined by `specEffectiveColumn`. -/
theorem C2_row1_resolution (p : Person) (path : List StepType) (g : Gender)
    (tr : List Person) (hrow : p.row = 1) (hpath : path ≠ [])
    (hlen : tr.length = path.length + 1)
    (hg : p.gender = Gender.male ∨ p.gender = Gender.female) :
    labelFor p path g (some tr) = specRow1Term p (specEffectiveColumn p path tr) := by
  have h0 : path.length ≠ 0 := by simpa [List.length_eq_zero] using hpath
  have htr2 : 2 ≤ tr.length := by
    have h1 : 0 < path.length := List.length_pos.mpr hpath
    omega
  obtain ⟨s, hs⟩ : ∃ s, path.getLast? = some s :=
    ⟨path.getLast hpath, List.getLast?_eq_getLast_of_ne_nil hpath⟩
  rcases hg with hg | hg <;> cases s <;>
    simp [labelFor, specEffectiveColumn, specRow1Term, hs, hg, hrow, h0, htr2]

/-- C2 witness: selfGender = male, steps = [mother, sibling(male, unknown)]
(spec Scenario 2) resolves through the row-1 rule to the maternal-uncle term. -/
theorem C2_row1_resolution_witness :
    labelFor ⟨Col.B, 1, Gender.male, RefForAge.mother, false⟩
      [StepType.mother, StepType.sibling Gender.male AgeRel.unknown] Gender.male
      (some (simulate Gender.male
        [StepType.mother, StepType.sibling Gender.male AgeRel.unknown])) =
    "MAva (maternal uncle)" := by
  have h := C2_row1_resolution ⟨Col.B, 1, Gender.male, RefForAge.mother, false⟩
    [StepType.mother, StepType.sibling Gender.male AgeRel.unknown] Gender.male
    (simulate Gender.male
      [StepType.mother, StepType.sibling Gender.male AgeRel.unknown])
    rfl (by decide) rfl (Or.inl rfl)
  exact h.trans rfl

/-- C7: `labelFor` is total and falls back to the uncovered-relationship
sentinel for grid cells no rule matches: any non-empty path ending outside
rows [-1, 4], and any non-empty path ending at row 1 with unknown gender,
yield the sentinel string rather than an error. -/
theorem C7_total_sentinel :
    (∀ (p : Person) (path : List StepType) (g : Gender) (tr : Option (List Person)),
      path ≠ [] → (p.row < -1 ∨ 4 < p.row) →
      labelFor p path g tr = "Relationship not yet covered by this demo") ∧
    (∀ (p : Person) (path : List StepType) (g : Gender) (tr : Option (List Person)),
      path ≠ [] → p.row = 1 → p.gender = Gender.unknown →
      labelFor p path g tr = "Relationship not yet covered by this demo") := by
  constructor
  · intro p path g tr hpath hrow
    have h0 : path.length ≠ 0 := by simpa [List.length_eq_zero] using hpath
    have h2 : ¬ p.row = 2 := by omega
    have h1 : ¬ p.row = 1 := by omega
    have h3 : ¬ p.row = 3 := by omega
    have h4 : ¬ p.row = 4 := by omega
    have hz : ¬ p.row = 0 := by omega
    have hm : ¬ p.row = -1 := by omega
    simp [labelFor, h0, h1, h2, h3, h4, hz, hm]
  · intro p path g tr hpath hrow hgen
    have h0 : path.length ≠ 0 := by simpa [List.length_eq_zero] using hpath
    simp [labelFor, h0, hrow, hgen]

/-- C7 witness: a concrete position at row 5 (outside [-1, 4]) and a concrete
row-1 position with unknown gender both resolve to the sentinel string. -/
theorem C7_total_sentinel_witness :
    labelFor ⟨Col.A, 5, Gender.male, RefForAge.you, true⟩ [StepType.father]
      Gender.male none = "Relationship not yet covered by this demo" ∧
    labelFor ⟨Col.A, 1, Gender.unknown, RefForAge.you, false⟩ [StepType.father]
      Gender.male none = "Relationship not yet covered by this demo" :=
  ⟨C7_total_sentinel.1 ⟨Col.A, 5, Gender.male, RefForAge.you, true⟩
      [StepType.father] Gender.male none (by decide) (by decide),
    C7_total_sentinel.2 ⟨Col.A, 1, Gender.unknown, RefForAge.you, false⟩
      [StepType.father] Gender.male none (by decide) rfl rfl⟩
